import Mathlib

/-!
Shallow embedding of the connection / appointment workflow layer of the
AarogyaAi browser scripts (static/js/main.js and the dashboard scripts).
JavaScript object fields that may be `undefined` are modelled as `Option`;
JavaScript string truthiness (the empty string is falsy) is modelled
explicitly.  DOM output is modelled as structured values: the HTML strings
built by the code are abstracted to the list of interactive elements they
contain, in the order the code appends them.
-/

namespace AarogyaAi

/-- JavaScript truthiness of a possibly-undefined string value:
`undefined`/`null` and the empty string are falsy. -/
def truthy : Option String → Bool
  | none => false
  | some s => s ≠ ""

/-- The JavaScript expression `a || b` on possibly-undefined strings. -/
def jsOr (a b : Option String) : Option String :=
  if truthy a then a else b

/-- The JavaScript expression `o || d` where `d` is a string literal. -/
def jsOrDefault (o : Option String) (d : String) : String :=
  match o with
  | some s => if s = "" then d else s
  | none => d

/-- `String.toLowerCase()` as used on the ASCII status strings. -/
def toLowerStr (s : String) : String := String.mk (s.data.map Char.toLower)

/-- An appointment record as consumed by the front end (fields of the JSON
objects returned by `/appointments/list` and `/appointments/pending`). -/
structure Appt where
  id : Option String := none
  _id : Option String := none
  patient_email : String := ""
  doctor_email : String := ""
  reason : String := ""
  predicted_severity : Option String := none
  status : Option String := none
  appointment_time : Option String := none
  meeting_link : Option String := none
  is_link_active : Bool := false
deriving DecidableEq, Repr

/-- `const statusLower = (appt.status || 'pending').toLowerCase();` -/
def statusLower (a : Appt) : String :=
  toLowerStr (jsOrDefault a.status "pending")

/-- The sequence of `if` reassignments computing `statusColor` in
`loadAppointmentsList`, starting from the gray default. -/
def statusColor (a : Appt) : String :=
  let sl := statusLower a
  let c := "bg-gray-100 text-gray-800"
  let c := if sl = "confirmed" then "bg-green-100 text-green-800" else c
  let c := if sl = "rejected" then "bg-red-100 text-red-800" else c
  if sl = "completed" then "bg-blue-100 text-blue-800" else c

/-- The interactive / indicator elements a rendered appointment card can
contain, abstracted from the HTML fragments appended to `actionButtons`. -/
inductive ActionEl
  | joinDoctor
  | activateBtn
  | activeBadge
  | completeBtn
  | joinPatient
  | waiting
deriving DecidableEq, Repr

/-- The `actionButtons` accumulation of `loadAppointmentsList`
(static/js/main.js): the doctor branch appends the Join anchor only when
`appt.meeting_link` is truthy, then the Activate button when
`!appt.is_link_active` (else the Link Active badge), then the Mark
Completed button; the patient branch appends the Join anchor when
`appt.is_link_active` and the waiting indicator otherwise.  Both branches
fire only when the lowercased status is `confirmed`. -/
def actionButtons (userType : String) (a : Appt) : List ActionEl :=
  let sl := statusLower a
  (if userType = "doctor" ∧ sl = "confirmed" then
      (if truthy a.meeting_link then [ActionEl.joinDoctor] else [])
      ++ (if !a.is_link_active then [ActionEl.activateBtn] else [ActionEl.activeBadge])
      ++ [ActionEl.completeBtn]
    else [])
  ++ (if userType = "patient" ∧ sl = "confirmed" then
      (if a.is_link_active then [ActionEl.joinPatient] else [ActionEl.waiting])
    else [])

/-- `const apptId = appt.id || appt._id;` -/
def apptIdOf (a : Appt) : Option String := jsOr a.id a._id

/-- The rendered Time line of a card. -/
inductive DateStr
  | localeOf (t : String)
  | datePending
deriving DecidableEq, Repr

/-- `appt.appointment_time ? new Date(...).toLocaleString() : 'Date Pending'` -/
def dateStrOf (a : Appt) : DateStr :=
  if truthy a.appointment_time then
    DateStr.localeOf (jsOrDefault a.appointment_time "")
  else DateStr.datePending

/-- The doctor-view filter of `loadAppointmentsList`:
`data.filter(a => a.status && (a.status.toLowerCase() === 'confirmed'
|| a.status.toLowerCase() === 'completed'))`. -/
def doctorFilterPred (a : Appt) : Bool :=
  match a.status with
  | none => false
  | some s => s ≠ "" && (toLowerStr s = "confirmed" || toLowerStr s = "completed")

/-- `appointmentsToShow`: the doctor view filters to confirmed/completed,
every other user type renders the fetched data unchanged. -/
def appointmentsToShow (userType : String) (data : List Appt) : List Appt :=
  if userType = "doctor" then data.filter doctorFilterPred else data

/-- One rendered appointment card of `loadAppointmentsList`. -/
structure Card where
  otherParty : String
  statusBadge : Option String
  color : String
  reason : String
  time : DateStr
  actions : List ActionEl
deriving DecidableEq, Repr

/-- Rendering one appointment record into its card. -/
def renderCard (userType : String) (a : Appt) : Card :=
  { otherParty :=
      if userType = "doctor" then "Patient: " ++ a.patient_email
      else "Dr. " ++ a.doctor_email
    statusBadge := a.status
    color := statusColor a
    reason := a.reason
    time := dateStrOf a
    actions := actionButtons userType a }

/-- The container contents produced by `loadAppointmentsList`: either the
No-appointments placeholder paragraph or one card per shown record. -/
inductive RenderedList
  | emptyMsg (text : String)
  | cards (cs : List Card)
deriving DecidableEq, Repr

/-- `loadAppointmentsList` after the `/appointments/list` response arrives:
filter for the doctor view, placeholder when nothing remains, else one card
per remaining record in order. -/
def loadAppointmentsList (userType : String) (data : List Appt) : RenderedList :=
  let toShow := appointmentsToShow userType data
  if toShow.length = 0 then
    RenderedList.emptyMsg "No appointments found."
  else
    RenderedList.cards (toShow.map (renderCard userType))

/-- The records that receive a card in the upcoming/history container. -/
def shownRecords (userType : String) (data : List Appt) : List Appt :=
  appointmentsToShow userType data

/-- Contents of the doctor pending-requests container (fed by
`/appointments/pending`): the explicit no-pending placeholder or one
request card per fetched record. -/
inductive PendingView
  | noPending
  | requestCards (reqs : List Appt)
deriving DecidableEq, Repr

/-- The `pending-requests-container` handler after the response arrives:
placeholder when the fetched list is empty, else one card per record in
order, unfiltered. -/
def renderPendingRequests (data : List Appt) : PendingView :=
  if data.length = 0 then PendingView.noPending
  else PendingView.requestCards data

/-- The records that receive a card in the pending-requests container. -/
def pendingShownRecords (data : List Appt) : List Appt :=
  match renderPendingRequests data with
  | PendingView.noPending => []
  | PendingView.requestCards l => l

/-- The lowercased status of a record equals `s` (and the field is a
present, non-undefined string). -/
def statusIs (a : Appt) (s : String) : Prop :=
  ∃ str, a.status = some str ∧ toLowerStr str = s

/-! ### Confirm-appointment click handler (doctor pending view)

`btn-confirm-appointment` delegation handler: it reads the per-card
`datetime-local` input and aborts with a local error popup when the value
is falsy; otherwise it posts `{request_id, appointment_time}` to
`/appointments/confirm`. -/

/-- Outcome of one click on the Confirm Appointment button, before any
server response: either a local validation popup with no request issued,
or a confirm request carrying the given body. -/
inductive ConfirmOutcome
  | localError (msg : String)
  | requestSent (request_id : String) (appointment_time : String)
deriving DecidableEq, Repr

/-- `if (!appointmentTime) { Swal error; return; } fetch('/appointments/confirm', ...)` -/
def confirmClick (requestId : String) (appointmentTime : String) : ConfirmOutcome :=
  if appointmentTime = "" then
    ConfirmOutcome.localError "Please select a date and time for the appointment."
  else
    ConfirmOutcome.requestSent requestId appointmentTime

/-! ### Error surfacing of the remote handlers

Each handler's non-ok branch is embedded as a function from the error
response body (which may or may not expose a `detail` field) to the
user-visible surface it produces: a blocking SweetAlert popup, or inline
text written into a loader element. -/

/-- An error response body, exposing an optional `detail` string. -/
structure ErrResponse where
  detail : Option String := none
deriving DecidableEq, Repr

/-- How a failure is surfaced to the user. -/
inductive Surface
  | blocking (title : String) (msg : String)
  | inlineText (msg : String)
deriving DecidableEq, Repr

/-- `activateLink` non-ok branch: `Swal.fire('Error', 'Could not activate.', 'error')`. -/
def activateLinkOnError (_e : ErrResponse) : Surface :=
  Surface.blocking "Error" "Could not activate."

/-- `completeAppointment` non-ok branch. -/
def completeAppointmentOnError (_e : ErrResponse) : Surface :=
  Surface.blocking "Error" "Could not complete appointment."

/-- `confirmAppointment` non-ok branch:
`Swal.fire('Error', data.detail || 'Could not confirm.', 'error')`. -/
def confirmAppointmentOnError (e : ErrResponse) : Surface :=
  Surface.blocking "Error" (jsOrDefault e.detail "Could not confirm.")

/-- `rejectAppointment` non-ok branch: `Swal.fire('Error', 'Could not reject.', 'error')`. -/
def rejectAppointmentOnError (_e : ErrResponse) : Surface :=
  Surface.blocking "Error" "Could not reject."

/-- `handleConnection` non-ok branch: `Swal.fire('Error', 'Action failed.', 'error')`. -/
def handleConnectionOnError (_e : ErrResponse) : Surface :=
  Surface.blocking "Error" "Action failed."

/-- Connection-resolve delegation handler catch branch:
`Swal.fire({icon:'error', title:'Action Failed', text: error.detail || 'An unknown error occurred.'})`. -/
def resolveConnectionOnError (e : ErrResponse) : Surface :=
  Surface.blocking "Action Failed" (jsOrDefault e.detail "An unknown error occurred.")

/-- `loadAppointmentsList` catch branch: `loader.innerText = 'Error loading.'`. -/
def loadAppointmentsListOnError (_e : ErrResponse) : Surface :=
  Surface.inlineText "Error loading."

/-- `Surface.blocking` discriminator. -/
def Surface.isBlocking : Surface → Bool
  | Surface.blocking _ _ => true
  | Surface.inlineText _ => false

/-- The message text carried by a surface. -/
def Surface.msg : Surface → String
  | Surface.blocking _ m => m
  | Surface.inlineText m => m

/-! ### Connection-request resolve view update

The patient-dashboard delegation handler: on a successful accept/reject it
removes `request-${requestId}` from the container and, when no element
with an id beginning `request-` remains, replaces the container contents
with the no-pending-requests paragraph. -/

/-- Contents of the connection-requests container, as the list of request
card ids it holds or the explicit placeholder paragraph. -/
inductive ConnRequestsView
  | placeholder
  | cards (ids : List String)
deriving DecidableEq, Repr

/-- View update run by the success branch of the resolve handler, starting
from the card ids currently in the container. -/
def resolveSuccessView (ids : List String) (requestId : String) : ConnRequestsView :=
  let remaining := ids.erase requestId
  if remaining.length = 0 then ConnRequestsView.placeholder
  else ConnRequestsView.cards remaining

/-! ### Send-connection-request button

The dashboard delegation handler for `send-connection-request`: a click
opens a loading modal and issues the POST; the success branch swaps in a
success popup and sets `event.target.disabled = true`; the error branch
swaps in an error popup and leaves the button enabled.  A click event
reaches the handler only while the button is enabled and no modal covers
the page (DOM and SweetAlert semantics). -/

/-- State of the Send Connection Request affordance. -/
structure SendBtnState where
  disabled : Bool
  modalOpen : Bool
  inFlight : Bool
  requestsSent : Nat
deriving DecidableEq, Repr

/-- The freshly rendered search-result button. -/
def initSendBtn : SendBtnState :=
  { disabled := false, modalOpen := false, inFlight := false, requestsSent := 0 }

/-- A click: delivered to the handler only when the button is enabled and
no modal is covering the page; the handler opens the loading modal and
issues the POST. -/
def clickSend (s : SendBtnState) : SendBtnState :=
  if s.disabled || s.modalOpen then s
  else { s with modalOpen := true, inFlight := true, requestsSent := s.requestsSent + 1 }

/-- Success branch: success popup shown, `event.target.disabled = true`. -/
def sendSuccess (s : SendBtnState) : SendBtnState :=
  { s with inFlight := false, modalOpen := true, disabled := true }

/-- Error branch: error popup shown, button left enabled. -/
def sendFailure (s : SendBtnState) : SendBtnState :=
  { s with inFlight := false, modalOpen := true }

/-- The user dismisses whatever popup is open. -/
def dismissModal (s : SendBtnState) : SendBtnState :=
  { s with modalOpen := false }

/-! ### activateLink / completeAppointment guards

Both global actions begin with `if (!apptId) return;`; afterwards they
show a confirmation dialog and, only if the user confirms, issue the POST
and react to its result. -/

/-- Observable effects of one invocation of a global appointment action. -/
inductive Effect
  | showDialog (title : String)
  | httpPost (url : String)
  | successPopup (title : String)
  | errorPopup (msg : String)
  | refreshList
deriving DecidableEq, Repr

/-- Result of the confirmation dialog. -/
inductive DialogResult
  | confirmed
  | cancelled
deriving DecidableEq, Repr

/-- `window.activateLink`, as the effect trace of one invocation, given
the user's dialog choice and whether the server answers ok. -/
def activateLink (apptId : Option String) (d : DialogResult) (ok : Bool) : List Effect :=
  if !truthy apptId then []
  else
    Effect.showDialog "Activate Link?" ::
      (match d with
       | DialogResult.cancelled => []
       | DialogResult.confirmed =>
         Effect.httpPost ("/appointments/activate/" ++ jsOrDefault apptId "") ::
           (if ok then [Effect.successPopup "Activated!", Effect.refreshList]
            else [Effect.errorPopup "Could not activate."]))

/-- `window.completeAppointment`, as the effect trace of one invocation. -/
def completeAppointment (apptId : Option String) (d : DialogResult) (ok : Bool) : List Effect :=
  if !truthy apptId then []
  else
    Effect.showDialog "Complete Appointment?" ::
      (match d with
       | DialogResult.cancelled => []
       | DialogResult.confirmed =>
         Effect.httpPost ("/appointments/complete/" ++ jsOrDefault apptId "") ::
           (if ok then [Effect.successPopup "Completed!", Effect.refreshList]
            else [Effect.errorPopup "Could not complete appointment."]))

/-! ### Claim-side comparison definitions

These follow the wording of the specification claims, to be compared with
the definitions embedded from the source above. -/

/-- The C1 selection rule exactly as the claim words it: a pure function
of (role, lowercased status, is_link_active); the doctor always gets the
Join link on a confirmed appointment. -/
def claimedActionsC1 (userType : String) (sl : String) (isActive : Bool) : List ActionEl :=
  if userType = "doctor" ∧ sl = "confirmed" then
    [ActionEl.joinDoctor]
      ++ (if isActive then [ActionEl.activeBadge] else [ActionEl.activateBtn])
      ++ [ActionEl.completeBtn]
  else if userType = "patient" ∧ sl = "confirmed" then
    (if isActive then [ActionEl.joinPatient] else [ActionEl.waiting])
  else []

/-- The amended C1 selection rule: additionally a function of whether the
record carries a truthy meeting_link, which gates the doctor Join link. -/
def amendedActionsC1 (userType : String) (sl : String) (isActive : Bool)
    (hasLink : Bool) : List ActionEl :=
  if userType = "doctor" ∧ sl = "confirmed" then
    (if hasLink then [ActionEl.joinDoctor] else [])
      ++ (if isActive then [ActionEl.activeBadge] else [ActionEl.activateBtn])
      ++ [ActionEl.completeBtn]
  else if userType = "patient" ∧ sl = "confirmed" then
    (if isActive then [ActionEl.joinPatient] else [ActionEl.waiting])
  else []

/-! ### Concrete sample records used by witnesses and counterexamples -/

/-- A confirmed appointment whose meeting_link is still undefined. -/
def apptNoLink : Appt :=
  { status := some "confirmed", is_link_active := false, meeting_link := none }

/-- A completed appointment whose link flag is still raised. -/
def apptCompletedActive : Appt :=
  { status := some "Completed", is_link_active := true,
    meeting_link := some "https://meet.example/x" }

/-- A pending appointment request. -/
def apptPendingRec : Appt :=
  { status := some "pending", reason := "fever" }

/-- A confirmed appointment with an active link. -/
def apptConfirmedRec : Appt :=
  { status := some "Confirmed", is_link_active := true,
    meeting_link := some "https://meet.example/x" }

/-- A rejected appointment. -/
def apptRejectedRec : Appt :=
  { status := some "rejected" }

/-- A record with no status, no appointment_time and only a Mongo _id. -/
def apptBareRec : Appt :=
  { reason := "fever", _id := some "abc123" }

/-! ## Theorems -/

/-- `toLowerStr` of a string is empty exactly when the string is empty. -/
theorem toLowerStr_eq_empty_iff (s : String) : toLowerStr s = "" ↔ s = "" := by
  constructor
  · intro h
    have h2 : s.data.map Char.toLower = [] := by
      have := congrArg String.data h
      simpa [toLowerStr] using this
    have h3 : s.data = [] := List.map_eq_nil_iff.mp h2
    cases s
    simpa [String.ext_iff] using h3
  · intro h
    subst h
    rfl

/-- The doctor-view filter keeps a record exactly when its status is a
present string lowercasing to confirmed or completed. -/
theorem doctorFilterPred_iff (a : Appt) :
    doctorFilterPred a = true ↔ (statusIs a "confirmed" ∨ statusIs a "completed") := by
  cases hst : a.status with
  | none => simp [doctorFilterPred, statusIs, hst]
  | some s =>
    simp only [doctorFilterPred, hst, statusIs, Option.some.injEq,
      Bool.and_eq_true, Bool.or_eq_true, decide_eq_true_eq]
    constructor
    · rintro ⟨_h1, h2⟩
      rcases h2 with h2 | h2
      · exact Or.inl ⟨s, rfl, h2⟩
      · exact Or.inr ⟨s, rfl, h2⟩
    · rintro (⟨str, hstr, hl⟩ | ⟨str, hstr, hl⟩) <;> subst hstr
      · refine ⟨?_, Or.inl hl⟩
        intro he
        subst he
        simp [toLowerStr] at hl
      · refine ⟨?_, Or.inr hl⟩
        intro he
        subst he
        simp [toLowerStr] at hl

/-- C1 counterexample: on a confirmed appointment with no meeting_link the
claimed rule demands a doctor Join link, but the code renders none, so the
action set is not the claimed pure function of (role, status,
is_link_active). -/
theorem C1_counterexample :
    ActionEl.joinDoctor ∈
      claimedActionsC1 "doctor" (statusLower apptNoLink) apptNoLink.is_link_active ∧
    ActionEl.joinDoctor ∉ actionButtons "doctor" apptNoLink := by
  constructor <;> decide

/-- C1 (amended): the action elements rendered by `loadAppointmentsList`
are a pure function of (role, lowercased status, is_link_active, presence
of a truthy meeting_link), with the doctor Join link additionally gated on
the meeting_link and everything else exactly as claimed. -/
theorem C1_actions_pure_function (userType : String) (a : Appt) :
    actionButtons userType a =
      amendedActionsC1 userType (statusLower a) a.is_link_active
        (truthy a.meeting_link) := by
  unfold actionButtons amendedActionsC1
  by_cases hd : userType = "doctor" <;> by_cases hp : userType = "patient" <;>
    by_cases hc : statusLower a = "confirmed" <;>
    cases hA : a.is_link_active <;> cases hL : truthy a.meeting_link <;>
    simp_all

/-- C2: a card rendered for a record whose status lowercases to completed
never carries a Join link (doctor or patient form) nor the Link Active
badge, whatever is_link_active says. -/
theorem C2_completed_never_shows_link (userType : String) (a : Appt) (str : String)
    (hs : a.status = some str) (hl : toLowerStr str = "completed") :
    ActionEl.joinDoctor ∉ (renderCard userType a).actions ∧
    ActionEl.activeBadge ∉ (renderCard userType a).actions ∧
    ActionEl.joinPatient ∉ (renderCard userType a).actions := by
  have hne : str ≠ "" := by
    intro he
    subst he
    simp [toLowerStr] at hl
  have hsl : statusLower a = "completed" := by
    simp [statusLower, jsOrDefault, hs, hne, hl]
  have hnc : ¬ statusLower a = "confirmed" := by
    rw [hsl]
    decide
  simp [renderCard, actionButtons, hnc]

/-- C2 witness: a completed appointment with is_link_active raised and a
meeting_link present still renders no Join link and no active badge. -/
theorem C2_witness :
    ActionEl.joinDoctor ∉ (renderCard "doctor" apptCompletedActive).actions ∧
    ActionEl.activeBadge ∉ (renderCard "doctor" apptCompletedActive).actions ∧
    ActionEl.joinPatient ∉ (renderCard "doctor" apptCompletedActive).actions :=
  C2_completed_never_shows_link "doctor" apptCompletedActive "Completed" rfl (by decide)

/-- C3: the doctor upcoming/history container shows exactly the fetched
records whose status lowercases to confirmed or completed, and the
pending-requests container, fed by the pending endpoint, shows exactly the
fetched records with pending status. -/
theorem C3_doctor_view_partition :
    (∀ (data : List Appt) (a : Appt),
      a ∈ shownRecords "doctor" data ↔
        a ∈ data ∧ (statusIs a "confirmed" ∨ statusIs a "completed")) ∧
    (∀ data : List Appt, (∀ a ∈ data, statusIs a "pending") →
      ∀ a : Appt, a ∈ pendingShownRecords data ↔ a ∈ data ∧ statusIs a "pending") := by
  constructor
  · intro data a
    have : shownRecords "doctor" data = data.filter doctorFilterPred := by
      simp [shownRecords, appointmentsToShow]
    rw [this, List.mem_filter, doctorFilterPred_iff]
  · intro data hall a
    have hps : pendingShownRecords data = data := by
      unfold pendingShownRecords renderPendingRequests
      by_cases h0 : data.length = 0
    -- an empty fetched list yields the placeholder and zero records
      · simp [h0, List.length_eq_zero.mp h0]
      · simp [h0]
    rw [hps]
    constructor
    · intro ha
      exact ⟨ha, hall a ha⟩
    · exact And.left

/-- C3 witness: with one confirmed, one pending and one rejected record,
the doctor container shows the confirmed one and not the rejected one, and
the pending container shows the pending one. -/
theorem C3_witness :
    (apptConfirmedRec ∈ shownRecords "doctor" [apptConfirmedRec, apptRejectedRec] ∧
      apptRejectedRec ∉ shownRecords "doctor" [apptConfirmedRec, apptRejectedRec]) ∧
    (apptPendingRec ∈ pendingShownRecords [apptPendingRec] ↔
      apptPendingRec ∈ [apptPendingRec] ∧ statusIs apptPendingRec "pending") := by
  constructor
  · constructor
    · exact (C3_doctor_view_partition.1 [apptConfirmedRec, apptRejectedRec]
        apptConfirmedRec).mpr
        ⟨by simp, Or.inl ⟨"Confirmed", rfl, by decide⟩⟩
    · intro hmem
      have h := (C3_doctor_view_partition.1 [apptConfirmedRec, apptRejectedRec]
        apptRejectedRec).mp hmem
      rcases h.2 with ⟨str, hstr, hl⟩ | ⟨str, hstr, hl⟩ <;>
        · have hse : "rejected" = str := by
            simpa [apptRejectedRec] using hstr
          subst hse
          simp [toLowerStr] at hl
  · exact C3_doctor_view_partition.2 [apptPendingRec]
      (by
        intro a ha
        simp at ha
        subst ha
        exact ⟨"pending", rfl, by decide⟩)
      apptPendingRec

/-- C4 counterexample: a blank (whitespace-only) appointment time is not
rejected locally; the handler sends it to the server as-is. -/
theorem C4_counterexample :
    " ".data.all Char.isWhitespace = true ∧
    confirmClick "r1" " " = ConfirmOutcome.requestSent "r1" " " := by
  constructor
  · decide
  · rfl

/-- C4 (amended): the confirm click handler rejects exactly the empty
appointment time locally, with an error popup and no request; every other
value, well-formed or not, past or future, is sent unvalidated. -/
theorem C4_empty_rejected_locally (id v : String) :
    (v = "" → confirmClick id v =
      ConfirmOutcome.localError "Please select a date and time for the appointment.") ∧
    (v ≠ "" → confirmClick id v = ConfirmOutcome.requestSent id v) := by
  constructor <;> intro h <;> simp [confirmClick, h]

/-- C4 witness: the empty value aborts locally and a concrete timestamp is
sent. -/
theorem C4_witness :
    confirmClick "r1" "" =
      ConfirmOutcome.localError "Please select a date and time for the appointment." ∧
    confirmClick "r1" "2024-05-01T10:00" =
      ConfirmOutcome.requestSent "r1" "2024-05-01T10:00" :=
  ⟨(C4_empty_rejected_locally "r1" "").1 rfl,
   (C4_empty_rejected_locally "r1" "2024-05-01T10:00").2 (by decide)⟩

/-- C5 counterexample: a failing reject — neither a link-activation nor a
list-refresh failure — surfaces a fixed generic blocking message and drops
the backend detail even when present, and a failing link activation
surfaces a blocking popup rather than inline text. -/
theorem C5_counterexample :
    rejectAppointmentOnError { detail := some "boom" } =
      Surface.blocking "Error" "Could not reject." ∧
    ("Could not reject." : String) ≠ "boom" ∧
    (activateLinkOnError { detail := some "boom" }).isBlocking = true := by
  refine ⟨rfl, by decide, rfl⟩

/-- C5 (amended): every remote failure among these handlers surfaces as a
blocking notification except the appointment-list refresh, which degrades
to inline text; the confirm-appointment and connection-resolve failures
carry the backend detail when present (generic fallback otherwise), while
the activate, complete, reject and handleConnection failures show fixed
generic messages independent of the response body. -/
theorem C5_error_surfacing (e : ErrResponse) :
    (activateLinkOnError e).isBlocking = true ∧
    (completeAppointmentOnError e).isBlocking = true ∧
    (rejectAppointmentOnError e).isBlocking = true ∧
    (handleConnectionOnError e).isBlocking = true ∧
    (confirmAppointmentOnError e).isBlocking = true ∧
    (resolveConnectionOnError e).isBlocking = true ∧
    (loadAppointmentsListOnError e).isBlocking = false ∧
    (∀ d, e.detail = some d → d ≠ "" →
      (confirmAppointmentOnError e).msg = d ∧ (resolveConnectionOnError e).msg = d) ∧
    (e.detail = none →
      (confirmAppointmentOnError e).msg = "Could not confirm." ∧
      (resolveConnectionOnError e).msg = "An unknown error occurred.") ∧
    (∀ e2 : ErrResponse,
      activateLinkOnError e = activateLinkOnError e2 ∧
      completeAppointmentOnError e = completeAppointmentOnError e2 ∧
      rejectAppointmentOnError e = rejectAppointmentOnError e2 ∧
      handleConnectionOnError e = handleConnectionOnError e2) := by
  refine ⟨rfl, rfl, rfl, rfl, rfl, rfl, rfl, ?_, ?_, ?_⟩
  · intro d hd hne
    constructor <;>
      simp [confirmAppointmentOnError, resolveConnectionOnError, jsOrDefault,
        Surface.msg, hd, hne]
  · intro hd
    constructor <;>
      simp [confirmAppointmentOnError, resolveConnectionOnError, jsOrDefault,
        Surface.msg, hd]
  · intro e2
    exact ⟨rfl, rfl, rfl, rfl⟩

/-- C5 witness: with a concrete detail string, confirm and resolve carry
it, the fixed-message handlers stay blocking, and list refresh is inline. -/
theorem C5_witness :
    (confirmAppointmentOnError { detail := some "boom" }).msg = "boom" ∧
    (resolveConnectionOnError { detail := some "boom" }).msg = "boom" ∧
    (loadAppointmentsListOnError { detail := some "boom" }).isBlocking = false :=
  ⟨((C5_error_surfacing { detail := some "boom" }).2.2.2.2.2.2.2.1 "boom" rfl
      (by decide)).1,
   ((C5_error_surfacing { detail := some "boom" }).2.2.2.2.2.2.2.1 "boom" rfl
      (by decide)).2,
   (C5_error_surfacing { detail := some "boom" }).2.2.2.2.2.2.1⟩

/-- C6: after a successful resolve the request card is gone from the
container (given that card ids are unique, as DOM ids are), an emptied
list renders the explicit placeholder, and the view is never an empty
blank card list. -/
theorem C6_resolve_updates_pending_list (ids : List String) (rid : String)
    (h : ids.Nodup) :
    rid ∉ ids.erase rid ∧
    (ids.erase rid = [] → resolveSuccessView ids rid = ConnRequestsView.placeholder) ∧
    resolveSuccessView ids rid ≠ ConnRequestsView.cards [] := by
  refine ⟨h.not_mem_erase, ?_, ?_⟩
  · intro he
    simp [resolveSuccessView, he]
  · unfold resolveSuccessView
    by_cases h0 : (ids.erase rid).length = 0
    · simp [h0]
    · simp only [h0, if_false]
      intro hc
      have he : ids.erase rid = [] := by
        injection hc
      exact h0 (by simp [he])

/-- C6 witness: resolving one of two pending cards removes it and leaves
the other; resolving the last card yields the placeholder. -/
theorem C6_witness :
    ("request-a" : String) ∉ ["request-a", "request-b"].erase "request-a" ∧
    (["request-a"].erase "request-a" = [] →
      resolveSuccessView ["request-a"] "request-a" = ConnRequestsView.placeholder) ∧
    resolveSuccessView ["request-a", "request-b"] "request-a" ≠
      ConnRequestsView.cards [] :=
  ⟨(C6_resolve_updates_pending_list ["request-a", "request-b"] "request-a"
      (by decide)).1,
   (C6_resolve_updates_pending_list ["request-a"] "request-a" (by decide)).2.1,
   (C6_resolve_updates_pending_list ["request-a", "request-b"] "request-a"
      (by decide)).2.2⟩

/-- C7 counterexample: immediately after the first click the request is
suspended at the network boundary yet the button is not disabled; the
disabled flag is only set by the success branch. -/
theorem C7_counterexample :
    (clickSend initSendBtn).inFlight = true ∧
    (clickSend initSendBtn).disabled = false := by
  constructor <;> rfl

/-- C7 (amended): the click does not disable the control; it opens a
loading modal, and while any modal is open a further click reaches no
handler and issues no request; the success branch disables the button, and
a disabled button ignores clicks even after the popup is dismissed. -/
theorem C7_send_button_locking :
    (clickSend initSendBtn).disabled = false ∧
    (clickSend initSendBtn).modalOpen = true ∧
    (∀ s : SendBtnState, s.modalOpen = true → clickSend s = s) ∧
    (∀ s : SendBtnState, (sendSuccess s).disabled = true) ∧
    (∀ s : SendBtnState, s.disabled = true → clickSend s = s) ∧
    (∀ s : SendBtnState, (dismissModal (sendSuccess s)).disabled = true) := by
  refine ⟨rfl, rfl, ?_, ?_, ?_, ?_⟩
  · intro s hs
    simp [clickSend, hs]
  · intro s
    rfl
  · intro s hs
    simp [clickSend, hs]
  · intro s
    rfl

/-- C7 witness: a second click during flight is a no-op, and after a
successful send and popup dismissal the button stays disabled and a
further click is a no-op. -/
theorem C7_witness :
    clickSend (clickSend initSendBtn) = clickSend initSendBtn ∧
    (dismissModal (sendSuccess (clickSend initSendBtn))).disabled = true ∧
    clickSend (dismissModal (sendSuccess (clickSend initSendBtn))) =
      dismissModal (sendSuccess (clickSend initSendBtn)) :=
  ⟨C7_send_button_locking.2.2.1 (clickSend initSendBtn) rfl,
   C7_send_button_locking.2.2.2.2.2 (clickSend initSendBtn),
   C7_send_button_locking.2.2.2.2.1
     (dismissModal (sendSuccess (clickSend initSendBtn))) rfl⟩

/-- C8: for a falsy appointment identifier (undefined or empty string)
both `activateLink` and `completeAppointment` produce no effect at all —
no dialog, no request, no popup, no list refresh — whatever the user would
have answered and whatever the server would have replied. -/
theorem C8_falsy_id_noop (apptId : Option String) (d : DialogResult) (ok : Bool)
    (h : truthy apptId = false) :
    activateLink apptId d ok = [] ∧ completeAppointment apptId d ok = [] := by
  unfold activateLink completeAppointment
  simp [h]

/-- C8 witness: the empty-string id and the undefined id are no-ops. -/
theorem C8_witness :
    activateLink (some "") DialogResult.confirmed true = [] ∧
    completeAppointment (some "") DialogResult.confirmed true = [] ∧
    activateLink none DialogResult.confirmed true = [] :=
  ⟨(C8_falsy_id_noop (some "") DialogResult.confirmed true (by decide)).1,
   (C8_falsy_id_noop (some "") DialogResult.confirmed true (by decide)).2,
   (C8_falsy_id_noop none DialogResult.confirmed true (by decide)).1⟩

/-- C9: two records identical except for the capitalization of their
status field get the same doctor-view filtering decision and the same
action elements for every user type. -/
theorem C9_status_case_insensitive (userType : String) (a : Appt) (s1 s2 : String)
    (h : toLowerStr s1 = toLowerStr s2) :
    doctorFilterPred { a with status := some s1 } =
      doctorFilterPred { a with status := some s2 } ∧
    actionButtons userType { a with status := some s1 } =
      actionButtons userType { a with status := some s2 } := by
  have hemp : s1 = "" ↔ s2 = "" := by
    constructor
    · intro h1
      subst h1
      exact (toLowerStr_eq_empty_iff s2).mp (by rw [← h]; rfl)
    · intro h2
      subst h2
      exact (toLowerStr_eq_empty_iff s1).mp (by rw [h]; rfl)
  have hsl : statusLower { a with status := some s1 } =
      statusLower { a with status := some s2 } := by
    by_cases h1 : s1 = ""
    · have h2 : s2 = "" := hemp.mp h1
      simp [statusLower, jsOrDefault, h1, h2]
    · have h2 : s2 ≠ "" := fun he => h1 (hemp.mpr he)
      simp [statusLower, jsOrDefault, h1, h2, h]
  constructor
  · by_cases h1 : s1 = ""
    · have h2 : s2 = "" := hemp.mp h1
      simp [doctorFilterPred, h1, h2]
    · have h2 : s2 ≠ "" := fun he => h1 (hemp.mpr he)
      simp [doctorFilterPred, h1, h2, h]
  · simp only [actionButtons, hsl]

/-- C9 witness: `Confirmed` and `confirmed` records filter and render the
same for the doctor. -/
theorem C9_witness :
    doctorFilterPred { apptNoLink with status := some "Confirmed" } =
      doctorFilterPred { apptNoLink with status := some "confirmed" } ∧
    actionButtons "doctor" { apptNoLink with status := some "Confirmed" } =
      actionButtons "doctor" { apptNoLink with status := some "confirmed" } :=
  C9_status_case_insensitive "doctor" apptNoLink "Confirmed" "confirmed" (by decide)

/-- C10: the renderer is total on partially populated records: a missing
status is treated as pending (gray badge, no action elements for any user
type), a missing appointment_time renders the Date Pending placeholder,
and the card identifier falls back from id to _id. -/
theorem C10_total_on_partial_records (userType : String) (a : Appt)
    (hs : a.status = none) :
    statusLower a = "pending" ∧
    statusColor a = "bg-gray-100 text-gray-800" ∧
    actionButtons userType a = [] ∧
    (a.appointment_time = none → dateStrOf a = DateStr.datePending) ∧
    (∀ b : Appt, truthy b.id = true → apptIdOf b = b.id) ∧
    (∀ b : Appt, truthy b.id = false → apptIdOf b = b._id) := by
  have hsl : statusLower a = "pending" := by
    simp [statusLower, jsOrDefault, hs]
    decide
  refine ⟨hsl, ?_, ?_, ?_, ?_, ?_⟩
  · rw [statusColor, hsl]
    decide
  · have hnc : ¬ statusLower a = "confirmed" := by
      rw [hsl]
      decide
    simp [actionButtons, hnc]
  · intro ht
    simp [dateStrOf, truthy, ht]
  · intro b hb
    simp [apptIdOf, jsOr, hb]
  · intro b hb
    simp [apptIdOf, jsOr, hb]

/-- C10 witness: a record with neither status nor appointment_time nor id
renders as a gray pending card with Date Pending and uses its _id. -/
theorem C10_witness :
    statusLower apptBareRec = "pending" ∧
    statusColor apptBareRec = "bg-gray-100 text-gray-800" ∧
    actionButtons "patient" apptBareRec = [] ∧
    dateStrOf apptBareRec = DateStr.datePending ∧
    apptIdOf apptBareRec = apptBareRec._id :=
  ⟨(C10_total_on_partial_records "patient" apptBareRec rfl).1,
   (C10_total_on_partial_records "patient" apptBareRec rfl).2.1,
   (C10_total_on_partial_records "patient" apptBareRec rfl).2.2.1,
   (C10_total_on_partial_records "patient" apptBareRec rfl).2.2.2.1 rfl,
   (C10_total_on_partial_records "patient" apptBareRec rfl).2.2.2.2.2 apptBareRec
     (by decide)⟩

end AarogyaAi
